import Mathlib

/-!
Verification of the conversational state-machine core of the medinow
repository: the `ConversationStateMachine` (backend/agents/state_machine.py),
the `ConversationManager` (backend/agents/conversation.py) and the session
rows of the SQLite layer (backend/storage/database.py), shallowly embedded
as pure Lean functions.

Conventions of the embedding:
- Python dicts used as records become Lean structures; the untyped values
  stored in `appointment_data`, `available_slots`, `selected_slot` and
  `user_appointments` become the inductive `Value`.
- Python objects are reference values; a nested mutable dict stored inside
  `appointment_data` is modelled as `Value.vref a`, an address into an
  explicit `Heap` of dict cells.  Top-level `dict.copy()` (a shallow copy)
  is then literally a copy of the association list: the list structure is
  duplicated but any `vref` entries keep pointing at the same heap cell.
- `context_stack` is kept with its top element at the HEAD of the Lean
  list (Python appends at the end and pops from the end; the convention
  is reversed but LIFO behaviour is identical).
- `json.dumps(-, cls=DateTimeEncoder)` becomes `jsonDumps`: the object
  graph is first resolved against the heap (fuel-limited, failure models
  a RecursionError on cyclic data) and then encoded; `date`/`datetime`
  values become their isoformat strings and any other non-JSON object
  (in particular a `ConversationState` enum member) makes the encoder
  raise, modelled as `none`.
-/

/-- The `ConversationState` enumeration of state_machine.py. -/
inductive ConversationState where
  | IDLE
  | GREETING
  | COLLECTING_DATE
  | COLLECTING_TIME
  | SHOWING_AVAILABLE_SLOTS
  | COLLECTING_PATIENT_INFO
  | CONFIRMING_APPOINTMENT
  | BOOKING_APPOINTMENT
  | IDENTIFYING_USER
  | SHOWING_USER_APPOINTMENTS
  | SELECTING_APPOINTMENT_TO_CANCEL
  | CONFIRMING_CANCELLATION
  | CANCELLING_APPOINTMENT
  | SELECTING_APPOINTMENT_TO_RESCHEDULE
  | COLLECTING_NEW_DATE
  | COLLECTING_NEW_TIME
  | SHOWING_RESCHEDULE_SLOTS
  | CONFIRMING_RESCHEDULE
  | RESCHEDULING_APPOINTMENT
  | OFF_TOPIC
deriving DecidableEq, Repr

/-- The `.name` attribute of an enum member. -/
def ConversationState.name : ConversationState → String
  | .IDLE => "IDLE"
  | .GREETING => "GREETING"
  | .COLLECTING_DATE => "COLLECTING_DATE"
  | .COLLECTING_TIME => "COLLECTING_TIME"
  | .SHOWING_AVAILABLE_SLOTS => "SHOWING_AVAILABLE_SLOTS"
  | .COLLECTING_PATIENT_INFO => "COLLECTING_PATIENT_INFO"
  | .CONFIRMING_APPOINTMENT => "CONFIRMING_APPOINTMENT"
  | .BOOKING_APPOINTMENT => "BOOKING_APPOINTMENT"
  | .IDENTIFYING_USER => "IDENTIFYING_USER"
  | .SHOWING_USER_APPOINTMENTS => "SHOWING_USER_APPOINTMENTS"
  | .SELECTING_APPOINTMENT_TO_CANCEL => "SELECTING_APPOINTMENT_TO_CANCEL"
  | .CONFIRMING_CANCELLATION => "CONFIRMING_CANCELLATION"
  | .CANCELLING_APPOINTMENT => "CANCELLING_APPOINTMENT"
  | .SELECTING_APPOINTMENT_TO_RESCHEDULE => "SELECTING_APPOINTMENT_TO_RESCHEDULE"
  | .COLLECTING_NEW_DATE => "COLLECTING_NEW_DATE"
  | .COLLECTING_NEW_TIME => "COLLECTING_NEW_TIME"
  | .SHOWING_RESCHEDULE_SLOTS => "SHOWING_RESCHEDULE_SLOTS"
  | .CONFIRMING_RESCHEDULE => "CONFIRMING_RESCHEDULE"
  | .RESCHEDULING_APPOINTMENT => "RESCHEDULING_APPOINTMENT"
  | .OFF_TOPIC => "OFF_TOPIC"

/-- Python `ConversationState[name]`: enum lookup by member name.
Returns `none` where Python raises `KeyError`. -/
def ConversationState.ofName : String → Option ConversationState
  | "IDLE" => some .IDLE
  | "GREETING" => some .GREETING
  | "COLLECTING_DATE" => some .COLLECTING_DATE
  | "COLLECTING_TIME" => some .COLLECTING_TIME
  | "SHOWING_AVAILABLE_SLOTS" => some .SHOWING_AVAILABLE_SLOTS
  | "COLLECTING_PATIENT_INFO" => some .COLLECTING_PATIENT_INFO
  | "CONFIRMING_APPOINTMENT" => some .CONFIRMING_APPOINTMENT
  | "BOOKING_APPOINTMENT" => some .BOOKING_APPOINTMENT
  | "IDENTIFYING_USER" => some .IDENTIFYING_USER
  | "SHOWING_USER_APPOINTMENTS" => some .SHOWING_USER_APPOINTMENTS
  | "SELECTING_APPOINTMENT_TO_CANCEL" => some .SELECTING_APPOINTMENT_TO_CANCEL
  | "CONFIRMING_CANCELLATION" => some .CONFIRMING_CANCELLATION
  | "CANCELLING_APPOINTMENT" => some .CANCELLING_APPOINTMENT
  | "SELECTING_APPOINTMENT_TO_RESCHEDULE" => some .SELECTING_APPOINTMENT_TO_RESCHEDULE
  | "COLLECTING_NEW_DATE" => some .COLLECTING_NEW_DATE
  | "COLLECTING_NEW_TIME" => some .COLLECTING_NEW_TIME
  | "SHOWING_RESCHEDULE_SLOTS" => some .SHOWING_RESCHEDULE_SLOTS
  | "CONFIRMING_RESCHEDULE" => some .CONFIRMING_RESCHEDULE
  | "RESCHEDULING_APPOINTMENT" => some .RESCHEDULING_APPOINTMENT
  | "OFF_TOPIC" => some .OFF_TOPIC
  | _ => none

theorem ConversationState.ofName_name (s : ConversationState) :
    ConversationState.ofName s.name = some s := by
  cases s <;> rfl

/-- Untyped Python values as stored in the machine's data fields.
`vdate` is a `date`/`datetime` object carrying its isoformat string;
`venum` is a `ConversationState` enum member; `vref` is a reference to a
mutable dict living in the heap; `vnone` is Python `None`. -/
inductive Value where
  | vstr : String → Value
  | vint : Int → Value
  | vdate : String → Value
  | venum : ConversationState → Value
  | vnone : Value
  | vref : Nat → Value
  | vlist : List Value → Value
  | vdict : List (String × Value) → Value

/-- Heap of mutable dict objects, addressed by index. -/
abbrev Heap := List (List (String × Value))

/-- Python `d[k] = v` on a dict modelled as an association list: an existing
key is overwritten in place, a new key is appended. -/
def dictSet (l : List (String × Value)) (k : String) (v : Value) :
    List (String × Value) :=
  if l.any (fun p => p.1 == k) then
    l.map (fun p => if p.1 == k then (k, v) else p)
  else
    l ++ [(k, v)]

/-- Python `d.get(k)`: `some` the stored value, `none` when the key is absent. -/
def dictGet (l : List (String × Value)) (k : String) : Option Value :=
  (l.find? (fun p => p.1 == k)).map (fun p => p.2)

/-- In-place mutation `heap[a][k] = v` of a nested dict object. -/
def Heap.mutateCell (h : Heap) (a : Nat) (k : String) (v : Value) : Heap :=
  List.set h a (dictSet (List.getD h a []) k v)

/-- Cell lookup in the heap. -/
def Heap.cell (h : Heap) (a : Nat) : Option (List (String × Value)) :=
  List.get? h a

mutual

/-- Resolve a value against the heap: replace every reference by the current
content of its cell. Fuel-limited; running out of fuel models the
`RecursionError` that `json.dumps` raises on a cyclic object graph. -/
def resolveValue (h : Heap) : Nat → Value → Option Value
  | 0, _ => none
  | n + 1, .vref a =>
    match h.cell a with
    | some cell => resolveValue h n (.vdict cell)
    | none => none
  | n + 1, .vdict l => (resolveEntries h n l).map Value.vdict
  | n + 1, .vlist l => (resolveList h n l).map Value.vlist
  | _ + 1, .vstr s => some (.vstr s)
  | _ + 1, .vint i => some (.vint i)
  | _ + 1, .vdate d => some (.vdate d)
  | _ + 1, .venum st => some (.venum st)
  | _ + 1, .vnone => some .vnone
termination_by n v => (n, sizeOf v)

/-- Resolve the entries of a dict against the heap. -/
def resolveEntries (h : Heap) : Nat → List (String × Value) → Option (List (String × Value))
  | _, [] => some []
  | n, (k, v) :: rest =>
    match resolveValue h n v, resolveEntries h n rest with
    | some w, some ws => some ((k, w) :: ws)
    | _, _ => none
termination_by n l => (n, sizeOf l)

/-- Resolve the elements of a list against the heap. -/
def resolveList (h : Heap) : Nat → List Value → Option (List Value)
  | _, [] => some []
  | n, v :: rest =>
    match resolveValue h n v, resolveList h n rest with
    | some w, some ws => some (w :: ws)
    | _, _ => none
termination_by n l => (n, sizeOf l)

end

mutual

/-- The body of `json.dumps(-, cls=DateTimeEncoder)` applied to an already
heap-resolved object: `date`/`datetime` become their isoformat strings and
any other non-JSON value — in particular a `ConversationState` enum
member — makes the encoder raise `TypeError`, modelled as `none`. -/
def encodeJson : Value → Option Value
  | .vstr s => some (.vstr s)
  | .vint n => some (.vint n)
  | .vdate d => some (.vstr d)
  | .venum _ => none
  | .vnone => some .vnone
  | .vref _ => none
  | .vlist l => (encodeJsonList l).map Value.vlist
  | .vdict l => (encodeJsonEntries l).map Value.vdict

/-- Encode the elements of a JSON array. -/
def encodeJsonList : List Value → Option (List Value)
  | [] => some []
  | v :: rest =>
    match encodeJson v, encodeJsonList rest with
    | some w, some ws => some (w :: ws)
    | _, _ => none

/-- Encode the entries of a JSON object. -/
def encodeJsonEntries : List (String × Value) → Option (List (String × Value))
  | [] => some []
  | (k, v) :: rest =>
    match encodeJson v, encodeJsonEntries rest with
    | some w, some ws => some ((k, w) :: ws)
    | _, _ => none

end

/-- Full `json.dumps(-, cls=DateTimeEncoder)`: walk the object graph through
the heap, then encode. The result `Value` stands for the JSON text (we keep
it as the parsed JSON value, which is what `json.loads` of the text gives
back). `none` models a raised exception. -/
def jsonDumps (h : Heap) (v : Value) : Option Value :=
  (resolveValue h 1000 v).bind encodeJson

/-- One saved snapshot as built by `save_context` in state_machine.py: the
dict `{state, appointment_data, available_slots, selected_slot,
user_appointments, timestamp}`, with `state` holding the enum member itself
and `timestamp` the `datetime.now().isoformat()` string. -/
structure Context where
  state : ConversationState
  appointment_data : List (String × Value)
  available_slots : List Value
  selected_slot : Option Value
  user_appointments : List Value
  timestamp : String

/-- The Python dict that a `Context` snapshot literally is. -/
def Context.toValue (c : Context) : Value :=
  .vdict [("state", .venum c.state),
          ("appointment_data", .vdict c.appointment_data),
          ("available_slots", .vlist c.available_slots),
          ("selected_slot", c.selected_slot.getD .vnone),
          ("user_appointments", .vlist c.user_appointments),
          ("timestamp", .vstr c.timestamp)]

/-- The `ConversationStateMachine` of state_machine.py. `selected_slot` is
`none` exactly when the Python attribute is `None`; the head of
`context_stack` is the top of the stack (most recently pushed). -/
structure ConversationStateMachine where
  state : ConversationState := .IDLE
  appointment_data : List (String × Value) := []
  available_slots : List Value := []
  selected_slot : Option Value := none
  context_stack : List Context := []
  user_appointments : List Value := []

namespace ConversationStateMachine

/-- The machine produced by `ConversationStateMachine()`. -/
def init : ConversationStateMachine := {}

/-- The method `transition_to`: unconditionally sets the state. -/
def transition_to (m : ConversationStateMachine) (new_state : ConversationState) :
    ConversationStateMachine :=
  { m with state := new_state }

/-- The method `get_state`. -/
def get_state (m : ConversationStateMachine) : ConversationState := m.state

/-- The method `set_appointment_data`: `self.appointment_data[key] = value`. -/
def set_appointment_data (m : ConversationStateMachine) (key : String) (value : Value) :
    ConversationStateMachine :=
  { m with appointment_data := dictSet m.appointment_data key value }

/-- The method `get_appointment_data`: `self.appointment_data.get(key)`. -/
def get_appointment_data (m : ConversationStateMachine) (key : String) : Option Value :=
  dictGet m.appointment_data key

/-- The method `clear_appointment_data`: empties `appointment_data`,
`available_slots` and `selected_slot`; nothing else is touched. -/
def clear_appointment_data (m : ConversationStateMachine) : ConversationStateMachine :=
  { m with appointment_data := [], available_slots := [], selected_slot := none }

/-- The method `set_available_slots`. -/
def set_available_slots (m : ConversationStateMachine) (slots : List Value) :
    ConversationStateMachine :=
  { m with available_slots := slots }

/-- The method `set_selected_slot`. -/
def set_selected_slot (m : ConversationStateMachine) (slot : Option Value) :
    ConversationStateMachine :=
  { m with selected_slot := slot }

/-- The method `is_appointment_complete`. -/
def is_appointment_complete (m : ConversationStateMachine) : Bool :=
  ["date", "time", "patient_name", "patient_email"].all
    (fun k => m.appointment_data.any (fun p => p.1 == k))

/-- The method `save_context`: pushes the snapshot dict onto the stack.
`appointment_data.copy()` and `available_slots.copy()` are shallow copies:
the association list and the element list are duplicated, but a `vref`
inside them keeps pointing at the same heap cell; `selected_slot` is stored
without any copy at all. `ts` is the `datetime.now().isoformat()` string. -/
def save_context (m : ConversationStateMachine) (ts : String) : ConversationStateMachine :=
  { m with context_stack :=
      { state := m.state,
        appointment_data := m.appointment_data,
        available_slots := m.available_slots,
        selected_slot := m.selected_slot,
        user_appointments := m.user_appointments,
        timestamp := ts } :: m.context_stack }

/-- The method `restore_context`: pops the most recent snapshot and installs
all of its fields, returning `true`; on an empty stack returns `false` and
changes nothing. -/
def restore_context (m : ConversationStateMachine) : Bool × ConversationStateMachine :=
  match m.context_stack with
  | [] => (false, m)
  | c :: rest =>
    (true,
     { state := c.state,
       appointment_data := c.appointment_data,
       available_slots := c.available_slots,
       selected_slot := c.selected_slot,
       user_appointments := c.user_appointments,
       context_stack := rest })

/-- The method `has_saved_context`. -/
def has_saved_context (m : ConversationStateMachine) : Bool :=
  m.context_stack.length > 0

/-- The method `set_user_appointments`. -/
def set_user_appointments (m : ConversationStateMachine) (appointments : List Value) :
    ConversationStateMachine :=
  { m with user_appointments := appointments }

end ConversationStateMachine

/-- The dictionary passed to / produced by `to_dict` and `from_dict`.
Each field is `none` when the key is absent from the Python dict.
`selected_slot` conflates a stored `None` with an absent key, exactly as
`data.get` does on the reading side; `to_dict` always writes the key, with
`None` when no slot is selected. -/
structure RecordDict where
  state : Option String := none
  appointment_data : Option (List (String × Value)) := none
  available_slots : Option (List Value) := none
  selected_slot : Option Value := none
  context_stack : Option (List Context) := none
  user_appointments : Option (List Value) := none

namespace ConversationStateMachine

/-- The method `to_dict`: the serialization dictionary, with `state` the
enum member's name and every other attribute passed through unchanged. -/
def to_dict (m : ConversationStateMachine) : RecordDict :=
  { state := some m.state.name,
    appointment_data := some m.appointment_data,
    available_slots := some m.available_slots,
    selected_slot := m.selected_slot,
    context_stack := some m.context_stack,
    user_appointments := some m.user_appointments }

/-- The classmethod `from_dict`: looks the state up by name, defaulting an
absent key to the name `IDLE`; an unknown name raises `KeyError`
(`Except.error`). All other fields default to empty when absent. -/
def from_dict (data : RecordDict) : Except String ConversationStateMachine :=
  match ConversationState.ofName (data.state.getD "IDLE") with
  | none => .error "KeyError"
  | some st =>
    .ok { state := st,
          appointment_data := data.appointment_data.getD [],
          available_slots := data.available_slots.getD [],
          selected_slot := data.selected_slot,
          context_stack := data.context_stack.getD [],
          user_appointments := data.user_appointments.getD [] }

end ConversationStateMachine

/-- One row of the `sessions` table of database.py, as returned by
`Database.get_session` after `json.loads`: the JSON values that were stored
for `appointment_data` and `context_stack`, plus the state name. -/
structure SessionRow where
  phone_number : String
  state : String
  appointment_data : Value
  context_stack : Value

/-- The `sessions` table, keyed by `session_id`. -/
abbrev Db := List (String × SessionRow)

/-- SQL upsert of a session row (`INSERT ... ON CONFLICT DO UPDATE`). -/
def Db.upsert (db : Db) (sid : String) (row : SessionRow) : Db :=
  if db.any (fun p => p.1 == sid) then
    db.map (fun p => if p.1 == sid then (sid, row) else p)
  else
    db ++ [(sid, row)]

/-- Row lookup: `Database.get_session`. -/
def Db.get_session (db : Db) (sid : String) : Option SessionRow :=
  (db.find? (fun p => p.1 == sid)).map (fun p => p.2)

/-- The method `Database.save_session`: JSON-encodes `appointment_data` and
`context_stack` with `DateTimeEncoder` and upserts the row; if either
`json.dumps` raises, the exception is caught and `(false, db)` is returned
with nothing written. -/
def Db.save_session (db : Db) (h : Heap) (sid phone state : String)
    (appointment_data : List (String × Value)) (context_stack : List Context) :
    Bool × Db :=
  match jsonDumps h (.vdict appointment_data),
        jsonDumps h (.vlist (context_stack.map Context.toValue)) with
  | some ad, some cs =>
    (true, db.upsert sid { phone_number := phone, state := state,
                           appointment_data := ad, context_stack := cs })
  | _, _ => (false, db)

/-- The method `Database.delete_session`. -/
def Db.delete_session (db : Db) (sid : String) : Db :=
  db.filter (fun p => !(p.1 == sid))

/-- Read a stored JSON `appointment_data` back into an association list.
Every row written by `Db.save_session` stores a JSON object here, so the
fallback branch is never hit on reachable databases. -/
def valueToDataDict : Value → List (String × Value)
  | .vdict l => l
  | _ => []

/-- Read one stored JSON snapshot back into a `Context`. A snapshot built
by `save_context` never survives JSON encoding (its `state` entry is an
enum member), so on every reachable database the stored stack is the empty
list and this function is never applied; it inverts `Context.toValue` for
completeness. -/
def valueToContext : Value → Option Context
  | .vdict [("state", .venum st), ("appointment_data", .vdict ad),
            ("available_slots", .vlist av), ("selected_slot", sel),
            ("user_appointments", .vlist ua), ("timestamp", .vstr ts)] =>
    some { state := st, appointment_data := ad, available_slots := av,
           selected_slot := match sel with | .vnone => none | s => some s,
           user_appointments := ua, timestamp := ts }
  | _ => none

/-- Read a stored JSON `context_stack` back into a list of snapshots. On
every reachable database the stored value is the empty JSON array. -/
def valueToContextStack : Value → List Context
  | .vlist vs => vs.filterMap valueToContext
  | _ => []

/-- The `ConversationManager` of conversation.py: the in-memory session
cache. Persistence is enabled; the database travels alongside. -/
structure ConversationManager where
  sessions : List (String × ConversationStateMachine) := []

namespace ConversationManager

/-- Cache lookup. -/
def lookup (mgr : ConversationManager) (sid : String) :
    Option ConversationStateMachine :=
  (mgr.sessions.find? (fun p => p.1 == sid)).map (fun p => p.2)

/-- The method `get_or_create_session`: return the cached machine if
present; otherwise try to restore from the database — the state is looked
up by name first (`ConversationState[session_data['state']]`), and a
`KeyError` there is caught, falling through to a fresh machine; a
successful restore installs only `state`, `appointment_data` and
`context_stack` on a freshly constructed machine. The returned manager has
the resulting machine cached. -/
def get_or_create_session (mgr : ConversationManager) (db : Db) (sid : String) :
    ConversationStateMachine × ConversationManager :=
  match mgr.lookup sid with
  | some m => (m, mgr)
  | none =>
    match db.get_session sid with
    | some row =>
      match ConversationState.ofName row.state with
      | some st =>
        let m : ConversationStateMachine :=
          { ConversationStateMachine.init with
              state := st,
              appointment_data := valueToDataDict row.appointment_data,
              context_stack := valueToContextStack row.context_stack }
        (m, { mgr with sessions := mgr.sessions ++ [(sid, m)] })
      | none =>
        let m := ConversationStateMachine.init
        (m, { mgr with sessions := mgr.sessions ++ [(sid, m)] })
    | none =>
      let m := ConversationStateMachine.init
      (m, { mgr with sessions := mgr.sessions ++ [(sid, m)] })

/-- The method `save_session` of the manager: writes through
`Database.save_session` with the machine's state name, appointment data and
context stack — and nothing else; a storage failure is logged and
swallowed, so only the resulting database is observable. -/
def save_session (db : Db) (h : Heap) (sid phone : String)
    (m : ConversationStateMachine) : Db :=
  (db.save_session h sid phone m.state.name m.appointment_data m.context_stack).2

/-- The method `clear_session`: evict from the cache and delete the row. -/
def clear_session (mgr : ConversationManager) (db : Db) (sid : String) :
    ConversationManager × Db :=
  ({ mgr with sessions := mgr.sessions.filter (fun p => !(p.1 == sid)) },
   db.delete_session sid)

end ConversationManager

/-! Helper lemmas about association-list lookup. -/

theorem find_key_append_right {α : Type} (l : List (String × α)) (sid : String) (x : α)
    (hl : l.find? (fun p => p.1 == sid) = none) :
    (l ++ [(sid, x)]).find? (fun p => p.1 == sid) = some (sid, x) := by
  induction l with
  | nil => simp [List.find?]
  | cons p rest ih =>
    rw [List.cons_append]
    cases hp : (p.1 == sid) with
    | true => simp [List.find?, hp] at hl
    | false =>
      simp only [List.find?, hp] at hl ⊢
      exact ih hl

theorem find_key_map_overwrite {α : Type} (l : List (String × α)) (sid : String) (x : α)
    (hl : l.any (fun p => p.1 == sid) = true) :
    (l.map (fun p => if p.1 == sid then (sid, x) else p)).find?
      (fun p => p.1 == sid) = some (sid, x) := by
  induction l with
  | nil => simp at hl
  | cons p rest ih =>
    simp only [List.map_cons]
    cases hp : (p.1 == sid) with
    | true => simp [List.find?, hp]
    | false =>
      simp only [hp, if_false, Bool.false_eq_true, List.find?, cond_false]
      have hrest : rest.any (fun p => p.1 == sid) = true := by
        rcases List.any_eq_true.mp hl with ⟨q, hmem, hq⟩
        rcases List.mem_cons.mp hmem with h | h
        · rw [h] at hq
          simp [hp] at hq
        · exact List.any_eq_true.mpr ⟨q, h, hq⟩
      exact ih hrest

/-- Saving then reading back a session row by the same key yields exactly
the saved row. -/
theorem Db.get_session_upsert (db : Db) (sid : String) (row : SessionRow) :
    (db.upsert sid row).get_session sid = some row := by
  unfold Db.upsert Db.get_session
  by_cases hany : db.any (fun p => p.1 == sid) = true
  · rw [if_pos hany, find_key_map_overwrite db sid row hany]
    rfl
  · have hfalse : db.any (fun p => p.1 == sid) = false := by
      cases h : db.any (fun p => p.1 == sid) with
      | false => rfl
      | true => exact absurd h hany
    have hnone : db.find? (fun p => p.1 == sid) = none := by
      rw [List.find?_eq_none]
      intro q hq
      have := List.any_eq_false.mp hfalse q hq
      simpa using this
    rw [if_neg hany, find_key_append_right db sid row hnone]
    rfl

/-! C1: serialization round trip. -/

/-- C1: for every machine, `from_dict (to_dict m)` succeeds and produces a
machine field-for-field equal to `m`: same `state`, `appointment_data`,
`available_slots`, `selected_slot`, `context_stack` and
`user_appointments`. -/
theorem C1_to_dict_from_dict_roundtrip (m : ConversationStateMachine) :
    ConversationStateMachine.from_dict m.to_dict = Except.ok m := by
  simp [ConversationStateMachine.from_dict, ConversationStateMachine.to_dict,
        ConversationState.ofName_name]

/-! C5: deserialize error semantics. -/

/-- C5: `from_dict` on a record whose `state` field names a value outside
the enumeration fails with a `KeyError` rather than coercing; on a record
with the `state` key wholly absent it succeeds and the machine starts at
`IDLE`. -/
theorem C5_from_dict_state_semantics (d : RecordDict) :
    (∀ s, d.state = some s → ConversationState.ofName s = none →
      ConversationStateMachine.from_dict d = Except.error "KeyError") ∧
    (d.state = none →
      ∃ m, ConversationStateMachine.from_dict d = Except.ok m ∧
        m.state = ConversationState.IDLE) := by
  constructor
  · intro s hs hn
    simp [ConversationStateMachine.from_dict, hs, hn]
  · intro hs
    refine ⟨{ state := .IDLE,
              appointment_data := d.appointment_data.getD [],
              available_slots := d.available_slots.getD [],
              selected_slot := d.selected_slot,
              context_stack := d.context_stack.getD [],
              user_appointments := d.user_appointments.getD [] }, ?_, rfl⟩
    have hidle : ConversationState.ofName "IDLE" = some .IDLE := rfl
    simp [ConversationStateMachine.from_dict, hs, hidle]

/-- Witness for C5 at the record `{state: "NOT_A_REAL_STATE"}` and at the
empty record. -/
theorem C5_from_dict_state_semantics_witness :
    ConversationStateMachine.from_dict { state := some "NOT_A_REAL_STATE" } =
      Except.error "KeyError" ∧
    (∃ m, ConversationStateMachine.from_dict {} = Except.ok m ∧
      m.state = ConversationState.IDLE) :=
  ⟨(C5_from_dict_state_semantics _).1 "NOT_A_REAL_STATE" rfl rfl,
   (C5_from_dict_state_semantics _).2 rfl⟩

/-! C7: pop on an empty stack. -/

/-- C7: `restore_context` on a machine with an empty `context_stack`
returns `false` and the machine is left entirely unchanged. -/
theorem C7_restore_context_empty_stack (m : ConversationStateMachine)
    (h : m.context_stack = []) :
    m.restore_context = (false, m) := by
  simp [ConversationStateMachine.restore_context, h]

/-- Witness for C7 at the freshly constructed machine. -/
theorem C7_restore_context_empty_stack_witness :
    ConversationStateMachine.init.context_stack = [] ∧
    ConversationStateMachine.init.restore_context =
      (false, ConversationStateMachine.init) :=
  ⟨rfl, C7_restore_context_empty_stack ConversationStateMachine.init rfl⟩

/-! C8: suspend and resume scenario. -/

/-- C8: starting at `COLLECTING_DATE`, after `set_appointment_data "time"`,
`save_context`, `transition_to OFF_TOPIC` and `clear_appointment_data` the
field is absent; `restore_context` then returns `true`, the state is back
to `COLLECTING_DATE` and the field holds `"14:00"` again. Universally
quantified over the snapshot timestamp. -/
theorem C8_suspend_resume (ts : String) :
    let m0 : ConversationStateMachine :=
      { ConversationStateMachine.init with state := .COLLECTING_DATE }
    let m1 := m0.set_appointment_data "time" (.vstr "14:00")
    let m2 := m1.save_context ts
    let m3 := m2.transition_to .OFF_TOPIC
    let m4 := m3.clear_appointment_data
    m4.get_appointment_data "time" = none ∧
    m4.restore_context.1 = true ∧
    m4.restore_context.2.state = ConversationState.COLLECTING_DATE ∧
    m4.restore_context.2.get_appointment_data "time" = some (.vstr "14:00") :=
  ⟨rfl, rfl, rfl, rfl⟩

/-! C9: frame of `clear_appointment_data`. -/

/-- C9: `clear_appointment_data` empties `appointment_data`,
`available_slots` and `selected_slot` and leaves both `state` and
`context_stack` exactly as they were. -/
theorem C9_clear_appointment_data_frame (m : ConversationStateMachine) :
    m.clear_appointment_data.appointment_data = [] ∧
    m.clear_appointment_data.available_slots = [] ∧
    m.clear_appointment_data.selected_slot = none ∧
    m.clear_appointment_data.state = m.state ∧
    m.clear_appointment_data.context_stack = m.context_stack :=
  ⟨rfl, rfl, rfl, rfl, rfl⟩

/-! C4: a non-empty context stack can never be persisted, because each
snapshot stores the `ConversationState` enum member itself and the JSON
encoder only knows how to handle `date`/`datetime`. -/

theorem resolveEntries_state_head (h : Heap) (s : ConversationState)
    (l : List (String × Value)) (n : Nat) (w : List (String × Value))
    (hw : resolveEntries h n (("state", .venum s) :: l) = some w) :
    ∃ ws, w = ("state", .venum s) :: ws := by
  cases n with
  | zero => simp [resolveEntries, resolveValue] at hw
  | succ n =>
    rw [resolveEntries] at hw
    have hv : resolveValue h (n + 1) (.venum s) = some (.venum s) := by
      simp [resolveValue]
    rw [hv] at hw
    cases hrest : resolveEntries h (n + 1) l with
    | none => rw [hrest] at hw; simp at hw
    | some ws =>
      rw [hrest] at hw
      simp at hw
      exact ⟨ws, hw.symm⟩

theorem resolveValue_vdict_state_head (h : Heap) (s : ConversationState)
    (l : List (String × Value)) (n : Nat) (w : Value)
    (hw : resolveValue h n (.vdict (("state", .venum s) :: l)) = some w) :
    ∃ ws, w = Value.vdict (("state", .venum s) :: ws) := by
  cases n with
  | zero => simp [resolveValue] at hw
  | succ n =>
    rw [resolveValue] at hw
    cases hes : resolveEntries h n (("state", .venum s) :: l) with
    | none => rw [hes] at hw; simp at hw
    | some es =>
      rw [hes] at hw
      simp at hw
      obtain ⟨ws, hws⟩ := resolveEntries_state_head h s l n es hes
      exact ⟨ws, by rw [← hw, hws]⟩

theorem resolveList_cons_shape (h : Heap) (n : Nat) (v : Value) (rest : List Value)
    (w : List Value) (hw : resolveList h n (v :: rest) = some w) :
    ∃ w0 ws, w = w0 :: ws ∧ resolveValue h n v = some w0 := by
  rw [resolveList] at hw
  cases hv : resolveValue h n v with
  | none => rw [hv] at hw; simp at hw
  | some w0 =>
    rw [hv] at hw
    cases hrest : resolveList h n rest with
    | none => rw [hrest] at hw; simp at hw
    | some ws =>
      rw [hrest] at hw
      simp at hw
      exact ⟨w0, ws, hw.symm, rfl⟩

theorem encodeJson_vdict_state_head (s : ConversationState)
    (l : List (String × Value)) :
    encodeJson (.vdict (("state", .venum s) :: l)) = none := by
  rw [encodeJson, encodeJsonEntries]
  rfl

/-- JSON-dumping a context stack with at least one snapshot always raises:
the first snapshot's `state` entry is an enum member, which the encoder
rejects. -/
theorem jsonDumps_stack_cons (h : Heap) (c : Context) (cs : List Context) :
    jsonDumps h (.vlist ((c :: cs).map Context.toValue)) = none := by
  rw [jsonDumps]
  cases hres : resolveValue h 1000 (.vlist ((c :: cs).map Context.toValue)) with
  | none => rfl
  | some w =>
    rw [List.map_cons, resolveValue] at hres
    cases hlist : resolveList h 999 (Context.toValue c :: cs.map Context.toValue) with
    | none => rw [hlist] at hres; simp at hres
    | some ws =>
      rw [hlist] at hres
      simp at hres
      obtain ⟨w0, ws', hshape, hw0⟩ :=
        resolveList_cons_shape h 999 (Context.toValue c) (cs.map Context.toValue) ws hlist
      obtain ⟨ws'', hw0shape⟩ :=
        resolveValue_vdict_state_head h c.state _ 999 w0 hw0
      rw [← hres, hshape, hw0shape]
      show Option.bind (some _) encodeJson = none
      rw [Option.bind]
      rw [encodeJson, encodeJsonList, encodeJson_vdict_state_head]
      rfl

/-- C4: a machine whose context stack is non-empty is never durably saved:
`Database.save_session` catches the `TypeError` that `json.dumps` raises on
the enum member inside the snapshot and returns `false`, leaving the
database unchanged — the suspended session is lost on process restart. -/
theorem C4_nonempty_stack_never_persisted (db : Db) (h : Heap) (sid phone : String)
    (m : ConversationStateMachine) (hne : m.context_stack ≠ []) :
    Db.save_session db h sid phone m.state.name m.appointment_data m.context_stack
      = (false, db) ∧
    ConversationManager.save_session db h sid phone m = db := by
  obtain ⟨c, cs, hcs⟩ : ∃ c cs, m.context_stack = c :: cs := by
    cases hcs : m.context_stack with
    | nil => exact absurd hcs hne
    | cons c cs => exact ⟨c, cs, rfl⟩
  have hmain : Db.save_session db h sid phone m.state.name m.appointment_data
      m.context_stack = (false, db) := by
    rw [Db.save_session, hcs, jsonDumps_stack_cons]
    cases jsonDumps h (.vdict m.appointment_data) <;> rfl
  refine ⟨hmain, ?_⟩
  rw [ConversationManager.save_session, hmain]

/-- Witness for C4 at a machine holding one saved snapshot. -/
theorem C4_nonempty_stack_never_persisted_witness :
    ({ ConversationStateMachine.init with
        context_stack := [{ state := .COLLECTING_DATE, appointment_data := [],
                            available_slots := [], selected_slot := none,
                            user_appointments := [],
                            timestamp := "2025-01-01T00:00:00" }] } :
      ConversationStateMachine).context_stack ≠ [] ∧
    (Db.save_session [] [] "S1" "+100"
      ({ ConversationStateMachine.init with
          context_stack := [{ state := .COLLECTING_DATE, appointment_data := [],
                              available_slots := [], selected_slot := none,
                              user_appointments := [],
                              timestamp := "2025-01-01T00:00:00" }] } :
        ConversationStateMachine).state.name
      ({ ConversationStateMachine.init with
          context_stack := [{ state := .COLLECTING_DATE, appointment_data := [],
                              available_slots := [], selected_slot := none,
                              user_appointments := [],
                              timestamp := "2025-01-01T00:00:00" }] } :
        ConversationStateMachine).appointment_data
      ({ ConversationStateMachine.init with
          context_stack := [{ state := .COLLECTING_DATE, appointment_data := [],
                              available_slots := [], selected_slot := none,
                              user_appointments := [],
                              timestamp := "2025-01-01T00:00:00" }] } :
        ConversationStateMachine).context_stack = (false, []) ∧
      ConversationManager.save_session [] [] "S1" "+100"
        { ConversationStateMachine.init with
            context_stack := [{ state := .COLLECTING_DATE, appointment_data := [],
                                available_slots := [], selected_slot := none,
                                user_appointments := [],
                                timestamp := "2025-01-01T00:00:00" }] } = []) :=
  ⟨by simp,
   (C4_nonempty_stack_never_persisted [] [] "S1" "+100" _ (by simp)).1,
   (C4_nonempty_stack_never_persisted [] [] "S1" "+100" _ (by simp)).2⟩

/-! C2: what survives persist-then-rehydrate. -/

/-- C2 counterexample: a machine with a non-empty `available_slots` list is
saved and then rehydrated on a cache miss; the returned machine has lost
its slots, so it is not logically equal to the machine that was saved. -/
theorem C2_persistence_drops_slots_counterexample :
    ((ConversationManager.get_or_create_session {}
        (ConversationManager.save_session [] [] "S1" "+100"
          { ConversationStateMachine.init with
              available_slots := [Value.vstr "slot-1"] }) "S1").1.available_slots
      = [] ∧
     ({ ConversationStateMachine.init with
         available_slots := [Value.vstr "slot-1"] } :
       ConversationStateMachine).available_slots = [Value.vstr "slot-1"] ∧
     (ConversationManager.get_or_create_session {}
        (ConversationManager.save_session [] [] "S1" "+100"
          { ConversationStateMachine.init with
              available_slots := [Value.vstr "slot-1"] }) "S1").1 ≠
       { ConversationStateMachine.init with
           available_slots := [Value.vstr "slot-1"] }) := by
  have hdb : ConversationManager.save_session [] [] "S1" "+100"
      { ConversationStateMachine.init with available_slots := [Value.vstr "slot-1"] } =
      [("S1", { phone_number := "+100", state := "IDLE",
                appointment_data := .vdict [], context_stack := .vlist [] })] := by
    rw [ConversationManager.save_session, Db.save_session]
    simp [jsonDumps, resolveValue, resolveEntries, resolveList, encodeJson,
          encodeJsonEntries, encodeJsonList, Db.upsert, ConversationState.name,
          ConversationStateMachine.init]
  rw [hdb]
  have hres : ConversationManager.get_or_create_session {}
      [("S1", { phone_number := "+100", state := "IDLE",
                appointment_data := .vdict [], context_stack := .vlist [] })] "S1" =
      (ConversationStateMachine.init,
       { sessions := [("S1", ConversationStateMachine.init)] }) := by
    rw [ConversationManager.get_or_create_session]
    simp [ConversationManager.lookup, Db.get_session, List.find?,
          ConversationState.ofName, valueToDataDict, valueToContextStack,
          ConversationStateMachine.init]
  rw [hres]
  refine ⟨rfl, rfl, ?_⟩
  intro hEq
  have := congrArg ConversationStateMachine.available_slots hEq
  simp [ConversationStateMachine.init] at this

/-- Dumping an empty JSON array succeeds and is the identity. -/
theorem jsonDumps_vlist_nil (h : Heap) : jsonDumps h (.vlist []) = some (.vlist []) := by
  simp [jsonDumps, resolveValue, resolveList, encodeJson, encodeJsonList]

/-- C2 as amended: persisting and rehydrating on a cache miss preserves
`state`, `appointment_data` and the (necessarily empty, else nothing is
saved at all) `context_stack`, but returns a machine whose
`available_slots` is empty and whose `selected_slot` is absent, whatever
the saved machine held there. -/
theorem C2_persist_rehydrate_core_fields (mgr : ConversationManager) (db : Db)
    (h : Heap) (sid phone : String) (m : ConversationStateMachine)
    (hcache : mgr.lookup sid = none)
    (hstack : m.context_stack = [])
    (had : jsonDumps h (.vdict m.appointment_data) = some (.vdict m.appointment_data)) :
    (ConversationManager.get_or_create_session mgr
      (ConversationManager.save_session db h sid phone m) sid).1 =
    { state := m.state, appointment_data := m.appointment_data,
      available_slots := [], selected_slot := none,
      context_stack := m.context_stack, user_appointments := [] } := by
  have hdb1 : ConversationManager.save_session db h sid phone m =
      db.upsert sid { phone_number := phone, state := m.state.name,
                      appointment_data := .vdict m.appointment_data,
                      context_stack := .vlist [] } := by
    rw [ConversationManager.save_session, Db.save_session, hstack, List.map_nil,
        jsonDumps_vlist_nil, had]
  rw [hdb1]
  rw [ConversationManager.get_or_create_session]
  simp [hcache, Db.get_session_upsert, ConversationState.ofName_name,
        valueToDataDict, valueToContextStack, ConversationStateMachine.init, hstack]

/-- Witness for C2 as amended, at a machine carrying data, slots and a
selected slot. -/
theorem C2_persist_rehydrate_core_fields_witness :
    (ConversationManager.get_or_create_session {}
      (ConversationManager.save_session [] [] "S1" "+100"
        { ConversationStateMachine.init with
            state := .GREETING,
            appointment_data := [("date", .vstr "2025-06-01")],
            available_slots := [.vstr "slot-1"],
            selected_slot := some (.vstr "slot-1") }) "S1").1 =
    { state := .GREETING, appointment_data := [("date", .vstr "2025-06-01")],
      available_slots := [], selected_slot := none,
      context_stack := [], user_appointments := [] } :=
  C2_persist_rehydrate_core_fields {} [] [] "S1" "+100" _
    rfl rfl
    (by simp [jsonDumps, resolveValue, resolveEntries, encodeJson, encodeJsonEntries])

/-! C3: what `save_context`'s shallow copy does and does not protect. -/

/-- C3 counterexample: `save_context` copies only the top level of
`appointment_data`. A nested dict stored under a key is shared by
reference, so mutating it in place after the push changes what the pushed
snapshot contains: resolved against the heap before the mutation the
snapshot shows `10:00`, after it `11:00`. -/
theorem C3_shallow_copy_counterexample :
    ∃ c, (({ ConversationStateMachine.init with
              state := .COLLECTING_DATE,
              appointment_data := [("slot", .vref 0)] } :
            ConversationStateMachine).save_context
            "2025-01-01T00:00:00").context_stack = [c] ∧
      resolveValue [[("time", .vstr "10:00")]] 5 (.vdict c.appointment_data) =
        some (.vdict [("slot", .vdict [("time", .vstr "10:00")])]) ∧
      resolveValue (Heap.mutateCell [[("time", .vstr "10:00")]] 0 "time"
          (.vstr "11:00")) 5 (.vdict c.appointment_data) =
        some (.vdict [("slot", .vdict [("time", .vstr "11:00")])]) ∧
      resolveValue (Heap.mutateCell [[("time", .vstr "10:00")]] 0 "time"
          (.vstr "11:00")) 5 (.vdict c.appointment_data) ≠
        resolveValue [[("time", .vstr "10:00")]] 5 (.vdict c.appointment_data) := by
  refine ⟨{ state := .COLLECTING_DATE, appointment_data := [("slot", .vref 0)],
            available_slots := [], selected_slot := none, user_appointments := [],
            timestamp := "2025-01-01T00:00:00" }, rfl, ?_, ?_, ?_⟩
  · simp [resolveValue, resolveEntries, Heap.cell]
  · simp [Heap.mutateCell, dictSet, resolveValue, resolveEntries, Heap.cell]
  · intro hEq
    simp [Heap.mutateCell, dictSet, resolveValue, resolveEntries, Heap.cell] at hEq

/-- C3 as amended: the snapshot pushed by `save_context` is a shallow copy.
Re-assigning a key of the live machine via `set_appointment_data` never
changes the pushed snapshot: the stack and its top element are exactly what
`save_context` left there (and the heap is untouched by `set_appointment_data`,
so the snapshot's resolved content is unchanged too); only in-place mutation
of a shared nested object — the counterexample — can alter it. -/
theorem C3_snapshot_immune_to_set_field (m : ConversationStateMachine)
    (ts k : String) (v : Value) :
    ((m.save_context ts).set_appointment_data k v).context_stack =
      (m.save_context ts).context_stack ∧
    ((m.save_context ts).set_appointment_data k v).context_stack.head? =
      some { state := m.state, appointment_data := m.appointment_data,
             available_slots := m.available_slots,
             selected_slot := m.selected_slot,
             user_appointments := m.user_appointments, timestamp := ts } :=
  ⟨rfl, rfl⟩

/-! C6: a corrupt persisted record degrades to a fresh machine. -/

/-- C6: when the cache misses and the persisted row names a state outside
the enumeration, `get_or_create_session` catches the lookup failure and
returns a fresh machine — initial state, empty data, empty stack — and
caches it under the session key. -/
theorem C6_corrupt_record_fresh_machine (mgr : ConversationManager) (db : Db)
    (sid : String) (row : SessionRow)
    (hcache : mgr.lookup sid = none)
    (hrow : db.get_session sid = some row)
    (hstate : ConversationState.ofName row.state = none) :
    (ConversationManager.get_or_create_session mgr db sid).1 =
      ConversationStateMachine.init ∧
    ConversationStateMachine.init.state = ConversationState.IDLE ∧
    ConversationStateMachine.init.appointment_data = [] ∧
    ConversationStateMachine.init.context_stack = [] ∧
    (ConversationManager.get_or_create_session mgr db sid).2.lookup sid =
      some ConversationStateMachine.init := by
  have hres : ConversationManager.get_or_create_session mgr db sid =
      (ConversationStateMachine.init,
       { mgr with sessions :=
           mgr.sessions ++ [(sid, ConversationStateMachine.init)] }) := by
    rw [ConversationManager.get_or_create_session]
    simp [hcache, hrow, hstate]
  have hfind : mgr.sessions.find? (fun p => p.1 == sid) = none := by
    unfold ConversationManager.lookup at hcache
    exact Option.map_eq_none.mp hcache
  refine ⟨by rw [hres], rfl, rfl, rfl, ?_⟩
  rw [hres]
  unfold ConversationManager.lookup
  rw [find_key_append_right _ _ _ hfind]
  rfl

/-- Witness for C6 at a one-row database whose row names
`NOT_A_REAL_STATE`. -/
theorem C6_corrupt_record_fresh_machine_witness :
    (ConversationManager.get_or_create_session {}
      [("S9", { phone_number := "+100", state := "NOT_A_REAL_STATE",
                appointment_data := .vdict [], context_stack := .vlist [] })]
      "S9").1 = ConversationStateMachine.init ∧
    ConversationStateMachine.init.state = ConversationState.IDLE ∧
    ConversationStateMachine.init.appointment_data = [] ∧
    ConversationStateMachine.init.context_stack = [] ∧
    (ConversationManager.get_or_create_session {}
      [("S9", { phone_number := "+100", state := "NOT_A_REAL_STATE",
                appointment_data := .vdict [], context_stack := .vlist [] })]
      "S9").2.lookup "S9" = some ConversationStateMachine.init :=
  C6_corrupt_record_fresh_machine {}
    [("S9", { phone_number := "+100", state := "NOT_A_REAL_STATE",
              appointment_data := .vdict [], context_stack := .vlist [] })]
    "S9"
    { phone_number := "+100", state := "NOT_A_REAL_STATE",
      appointment_data := .vdict [], context_stack := .vlist [] }
    rfl (by simp [Db.get_session, List.find?]) rfl
